import Mathlib

/-!
Verification of the Abstract Factory demo (src/app.py).

The program defines six Enemy classes, six Weapon classes, six factory
classes pairing them, a fixed list `factories` of one instance of each
factory, and a handler `random_enemy` that picks one factory with
`random.choice(factories)`, builds its enemy and weapon, and returns a
two-field JSON object.

Shallow embedding choices:
- the closed sets of classes become enumerations; each instance carries no
  state, so an instance is identified with its variant;
- the `attack`, `use`, `create_enemy`, `create_weapon` methods become
  functions on the enumerations, returning exactly the strings of the source;
- the randomness of `random.choice` is externalized as a natural-number
  index `i` into the list; `random.choice` fails (raises IndexError) exactly
  when the list has no element at that index, which we model with Option;
- `random_enemy_st` threads the module-level registry explicitly as state,
  so that absence of mutation across calls is expressible;
- `random_enemy_json` keeps the JSON object as an ordered association list
  of key-value pairs, so the exact field names are expressible.
-/

namespace AbstractFactoryWD

/-- The six concrete Enemy subclasses of src/app.py (lines 41-63). -/
inductive Enemy
  | Orc
  | Troll
  | Elf
  | Dwarf
  | Dragon
  | Goblin
  deriving DecidableEq, Fintype

/-- The six concrete Weapon subclasses of src/app.py (lines 65-87). -/
inductive Weapon
  | OrcWeapon
  | TrollWeapon
  | ElfWeapon
  | DwarfWeapon
  | DragonWeapon
  | GoblinWeapon
  deriving DecidableEq, Fintype

/-- The six concrete EnemyFactory subclasses of src/app.py (lines 98-132). -/
inductive EnemyFactory
  | OrcFactory
  | TrollFactory
  | ElfFactory
  | DwarfFactory
  | DragonFactory
  | GoblinFactory
  deriving DecidableEq, Fintype

/-- The attack method of each Enemy subclass (src/app.py lines 41-63). -/
def Enemy.attack : Enemy → String
  | .Orc => "Orc attacks with brute force!"
  | .Troll => "Troll smashes its club down on you!"
  | .Elf => "Elf shoots a volley of arrows!"
  | .Dwarf => "Dwarf swings a mighty hammer, striking with solid precision!"
  | .Dragon => "Dragon unleashes a torrent of fire from its maw!"
  | .Goblin => "Goblin darts forward, slashing quickly with a rusty blade!"

/-- The use method of each Weapon subclass (src/app.py lines 65-87). -/
def Weapon.use : Weapon → String
  | .OrcWeapon => "You swing a crude but heavy axe!"
  | .TrollWeapon => "You lift a massive club overhead!"
  | .ElfWeapon => "You draw a slender longbow!"
  | .DwarfWeapon => "You heft a finely forged hammer, perfect for crushing skulls!"
  | .DragonWeapon => "You channel fiery breath, scorching all in your path!"
  | .GoblinWeapon => "You brandish a jagged dagger, small but deadly!"

/-- The create_enemy method of each factory (src/app.py lines 98-132). -/
def EnemyFactory.create_enemy : EnemyFactory → Enemy
  | .OrcFactory => .Orc
  | .TrollFactory => .Troll
  | .ElfFactory => .Elf
  | .DwarfFactory => .Dwarf
  | .DragonFactory => .Dragon
  | .GoblinFactory => .Goblin

/-- The create_weapon method of each factory (src/app.py lines 98-132). -/
def EnemyFactory.create_weapon : EnemyFactory → Weapon
  | .OrcFactory => .OrcWeapon
  | .TrollFactory => .TrollWeapon
  | .ElfFactory => .ElfWeapon
  | .DwarfFactory => .DwarfWeapon
  | .DragonFactory => .DragonWeapon
  | .GoblinFactory => .GoblinWeapon

/-- The module-level registry `factories` (src/app.py lines 134-141), in
source order. -/
def factories : List EnemyFactory :=
  [.OrcFactory, .TrollFactory, .ElfFactory, .DwarfFactory, .DragonFactory,
   .GoblinFactory]

/-- Model of Python random.choice with the randomness externalized as an
index i: it returns the element at index i when one exists, and fails
(IndexError in Python, reachable only on an empty sequence since Python
draws i uniformly below the length) otherwise. -/
def random_choice {α : Type} (l : List α) (i : Nat) : Option α :=
  l.get? i

/-- The JSON body returned by the /random_enemy handler: a record with the
two string fields of the dict literal at src/app.py lines 196-199. -/
structure Response where
  enemy_attack : String
  weapon_use : String
  deriving DecidableEq

/-- The /random_enemy handler (src/app.py lines 190-199), parameterized by
the random index i drawn by random.choice: pick the factory, create its
enemy and its weapon, return both description strings. -/
def random_enemy (i : Nat) : Option Response :=
  (random_choice factories i).map fun factory =>
    ⟨(factory.create_enemy).attack, (factory.create_weapon).use⟩

/-- The /random_enemy handler with the module-level registry threaded as
explicit state: the handler only reads `factories` and returns it unchanged,
since the source contains no assignment to it. -/
def random_enemy_st (st : List EnemyFactory) (i : Nat) :
    Option (Response × List EnemyFactory) :=
  (random_choice st i).map fun factory =>
    (⟨(factory.create_enemy).attack, (factory.create_weapon).use⟩, st)

/-- The /random_enemy handler with the jsonify argument kept as an ordered
association list, exposing the exact field names of the dict literal at
src/app.py lines 196-199. -/
def random_enemy_json (i : Nat) : Option (List (String × String)) :=
  (random_choice factories i).map fun factory =>
    [("enemy_attack", (factory.create_enemy).attack),
     ("weapon_use", (factory.create_weapon).use)]

/-- The six (character description, item description) pairs of the spec
table in section 6, in registry order. -/
def spec_pairs : List Response :=
  [⟨"Orc attacks with brute force!", "You swing a crude but heavy axe!"⟩,
   ⟨"Troll smashes its club down on you!", "You lift a massive club overhead!"⟩,
   ⟨"Elf shoots a volley of arrows!", "You draw a slender longbow!"⟩,
   ⟨"Dwarf swings a mighty hammer, striking with solid precision!",
    "You heft a finely forged hammer, perfect for crushing skulls!"⟩,
   ⟨"Dragon unleashes a torrent of fire from its maw!",
    "You channel fiery breath, scorching all in your path!"⟩,
   ⟨"Goblin darts forward, slashing quickly with a rusty blade!",
    "You brandish a jagged dagger, small but deadly!"⟩]

/-- C1: for every index the random selection can draw, the handler returns
the attack string of the chosen factory's enemy together with the use string
of that same factory's weapon: both components come from the single chosen
factory, so no cross-theme mixing occurs. -/
theorem c1_same_family : ∀ i : Nat, i < factories.length →
    ∃ f : EnemyFactory, random_choice factories i = some f ∧
      random_enemy i = some ⟨(f.create_enemy).attack, (f.create_weapon).use⟩ := by
  intro i hi
  simp only [factories, List.length] at hi
  interval_cases i <;> exact ⟨_, rfl, rfl⟩

/-- Witness for c1_same_family at index 0. -/
theorem c1_same_family_witness :
    0 < factories.length ∧
    ∃ f : EnemyFactory, random_choice factories 0 = some f ∧
      random_enemy 0 = some ⟨(f.create_enemy).attack, (f.create_weapon).use⟩ :=
  ⟨by decide, c1_same_family 0 (by decide)⟩

/-- C2: the list of results over all six drawable indices is exactly the six
pairs of the spec table, in order, and any returned pair for any index
whatsoever lies in that table: nothing outside the table is reachable. -/
theorem c2_exact_pairs :
    (List.range factories.length).map random_enemy = spec_pairs.map some ∧
    ∀ (i : Nat) (r : Response), random_enemy i = some r → r ∈ spec_pairs := by
  constructor
  · rfl
  · intro i r h
    unfold random_enemy random_choice at h
    cases hg : factories.get? i with
    | none => rw [hg] at h; simp at h
    | some f =>
      rw [hg] at h
      simp only [Option.map_some', Option.some.injEq] at h
      subst h
      cases f <;> decide

/-- Witness for c2_exact_pairs at index 0. -/
theorem c2_exact_pairs_witness :
    (⟨"Orc attacks with brute force!", "You swing a crude but heavy axe!"⟩ :
      Response) ∈ spec_pairs :=
  c2_exact_pairs.2 0 _ rfl

/-- C3: at index 3 the selection picks the Dwarf family and the handler
returns exactly the Dwarf attack string as character description and exactly
the Dwarf hammer string as item description. -/
theorem c3_dwarf_pair :
    random_choice factories 3 = some .DwarfFactory ∧
    random_enemy 3 = some
      ⟨"Dwarf swings a mighty hammer, striking with solid precision!",
       "You heft a finely forged hammer, perfect for crushing skulls!"⟩ :=
  ⟨rfl, rfl⟩

/-- C4: the registry has exactly six entries and every family is hit by
exactly one of the six equally likely indices, so under a uniform index each
family is selected with probability 1/6 and the index-to-family selection is
a bijection. -/
theorem c4_uniform_selection :
    factories.length = 6 ∧
    ∀ f : EnemyFactory,
      ((List.range factories.length).filter
        (fun i => factories.get? i == some f)).length = 1 := by
  refine ⟨rfl, ?_⟩
  intro f
  cases f <;> rfl

/-- Witness for c4_uniform_selection at the Orc family. -/
theorem c4_uniform_selection_witness :
    ((List.range factories.length).filter
      (fun i => factories.get? i == some EnemyFactory.OrcFactory)).length = 1 :=
  c4_uniform_selection.2 .OrcFactory

/-- C5: the registry is exactly the six factories in the order Orc, Troll,
Elf, Dwarf, Dragon, Goblin, and the handler never changes it: whenever a
call succeeds, the registry it leaves behind is the registry it was given. -/
theorem c5_registry_fixed :
    factories = [.OrcFactory, .TrollFactory, .ElfFactory, .DwarfFactory,
                 .DragonFactory, .GoblinFactory] ∧
    ∀ (st : List EnemyFactory) (i : Nat) (r : Response)
      (st' : List EnemyFactory),
      random_enemy_st st i = some (r, st') → st' = st := by
  refine ⟨rfl, ?_⟩
  intro st i r st' h
  unfold random_enemy_st random_choice at h
  cases hg : st.get? i with
  | none => rw [hg] at h; simp at h
  | some f =>
    rw [hg] at h
    simp only [Option.map_some', Option.some.injEq, Prod.mk.injEq] at h
    exact h.2.symm

/-- Witness for c5_registry_fixed: a concrete successful call at index 0
leaves the registry unchanged. -/
theorem c5_registry_fixed_witness : factories = factories :=
  c5_registry_fixed.2 factories 0
    ⟨"Orc attacks with brute force!", "You swing a crude but heavy axe!"⟩
    factories rfl

/-- C6: for every drawable index, the handler's JSON body is exactly a
two-entry object whose first field is named enemy_attack and whose second
field is named weapon_use, both holding strings, with no other fields. -/
theorem c6_output_shape : ∀ i : Nat, i < factories.length →
    ∃ a b : String,
      random_enemy_json i = some [("enemy_attack", a), ("weapon_use", b)] := by
  intro i hi
  simp only [factories, List.length] at hi
  interval_cases i <;> exact ⟨_, _, rfl⟩

/-- Witness for c6_output_shape at index 0. -/
theorem c6_output_shape_witness :
    0 < factories.length ∧
    ∃ a b : String,
      random_enemy_json 0 = some [("enemy_attack", a), ("weapon_use", b)] :=
  ⟨by decide, c6_output_shape 0 (by decide)⟩

/-- C7: the registry is non-empty, and for every index the uniform selection
can draw the whole pipeline succeeds: the error branch of the selection is
unreachable, so the handler is total. -/
theorem c7_total : factories ≠ [] ∧
    ∀ i : Nat, i < factories.length → (random_enemy i).isSome = true := by
  refine ⟨by decide, ?_⟩
  intro i hi
  simp only [factories, List.length] at hi
  interval_cases i <;> rfl

/-- Witness for c7_total at index 0. -/
theorem c7_total_witness :
    0 < factories.length ∧ (random_enemy 0).isSome = true :=
  ⟨by decide, c7_total.2 0 (by decide)⟩

/-- Helper: every index below the registry length hits some factory. -/
theorem factories_get_some : ∀ i : Nat, i < factories.length →
    ∃ f : EnemyFactory, factories.get? i = some f := by
  intro i hi
  simp only [factories, List.length] at hi
  interval_cases i <;> exact ⟨_, rfl⟩

/-- C8: two successive calls on the registry both succeed for any drawable
indices, and after them a third call behaves exactly as a call on the fresh
registry: no state observable by a later call is mutated. -/
theorem c8_stateless : ∀ i j k : Nat,
    i < factories.length → j < factories.length →
    (random_enemy_st factories i).isSome = true ∧
    ∀ (r1 : Response) (st1 : List EnemyFactory),
      random_enemy_st factories i = some (r1, st1) →
      (random_enemy_st st1 j).isSome = true ∧
      ∀ (r2 : Response) (st2 : List EnemyFactory),
        random_enemy_st st1 j = some (r2, st2) →
        random_enemy_st st2 k = random_enemy_st factories k := by
  intro i j k hi hj
  have h1 := factories_get_some i hi
  obtain ⟨f, hf⟩ := h1
  constructor
  · unfold random_enemy_st random_choice
    rw [hf]
    rfl
  · intro r1 st1 h1
    unfold random_enemy_st random_choice at h1
    rw [hf] at h1
    simp only [Option.map_some', Option.some.injEq, Prod.mk.injEq] at h1
    obtain ⟨-, hst1⟩ := h1
    subst hst1
    obtain ⟨g, hg⟩ := factories_get_some j hj
    constructor
    · unfold random_enemy_st random_choice
      rw [hg]
      rfl
    · intro r2 st2 h2
      unfold random_enemy_st random_choice at h2
      rw [hg] at h2
      simp only [Option.map_some', Option.some.injEq, Prod.mk.injEq] at h2
      obtain ⟨-, hst2⟩ := h2
      subst hst2
      rfl

/-- Witness for c8_stateless at indices 0, 0, 0. -/
theorem c8_stateless_witness :
    (random_enemy_st factories 0).isSome = true ∧
    random_enemy_st factories 0 = random_enemy_st factories 0 :=
  ⟨(c8_stateless 0 0 0 (by decide) (by decide)).1,
   (((c8_stateless 0 0 0 (by decide) (by decide)).2
      ⟨"Orc attacks with brute force!", "You swing a crude but heavy axe!"⟩
      factories rfl).2
      ⟨"Orc attacks with brute force!", "You swing a crude but heavy axe!"⟩
      factories rfl)⟩

/-- C9: every family is deterministic: any two enemies it creates describe
themselves with the same string, and any two weapons it creates describe
themselves with the same string, so the description pair is a function of
the family alone. -/
theorem c9_deterministic : ∀ (f : EnemyFactory) (e1 e2 : Enemy)
    (w1 w2 : Weapon),
    f.create_enemy = e1 → f.create_enemy = e2 →
    f.create_weapon = w1 → f.create_weapon = w2 →
    e1.attack = e2.attack ∧ w1.use = w2.use := by
  intro f e1 e2 w1 w2 he1 he2 hw1 hw2
  subst he1
  subst hw1
  exact ⟨by rw [he2], by rw [hw2]⟩

/-- Witness for c9_deterministic at the Orc factory. -/
theorem c9_deterministic_witness :
    (Enemy.Orc).attack = (Enemy.Orc).attack ∧
    (Weapon.OrcWeapon).use = (Weapon.OrcWeapon).use :=
  c9_deterministic .OrcFactory .Orc .Orc .OrcWeapon .OrcWeapon rfl rfl rfl rfl

/-- C10: the map from a family to its character description and the map from
a family to its item description are each injective: either string of a
returned pair uniquely determines the selected family. -/
theorem c10_descriptions_injective :
    (∀ f g : EnemyFactory,
      (f.create_enemy).attack = (g.create_enemy).attack → f = g) ∧
    (∀ f g : EnemyFactory,
      (f.create_weapon).use = (g.create_weapon).use → f = g) := by
  constructor <;> decide

/-- Witness for c10_descriptions_injective at the Orc factory. -/
theorem c10_descriptions_injective_witness :
    EnemyFactory.OrcFactory = EnemyFactory.OrcFactory :=
  c10_descriptions_injective.1 .OrcFactory .OrcFactory rfl

end AbstractFactoryWD
